import Mathlib

/-!
# nightowl: random-number distribution bridge

A shallow embedding of `controller/rng.go` (the `random` token generator, the
`SendRandNum` and `SendTestRandNum` handlers with the goroutines they start)
and of `cmd/rng.go` (the start-up sequence of the `rng-svc` command), followed
by the properties proved about them.

Conventions of the embedding.

* Go strings are Lean `String`s; `[]byte(s)` is the UTF-8 encoding `goBytes s`.
* `time.Duration` is a natural number of nanoseconds, as in Go.
* Elapsed time is measured from the start of a goroutine. `select` with a
  `default` branch, `Get` and `Publish` take no time, `time.Sleep d` takes
  exactly `d`, and a ticker or timer of period `d` is ready from elapsed time
  `d` on.
* A goroutine is a function from its environment (the history of the store,
  the bus connection) to the list of events it performs. Loops carry explicit
  fuel; a result `none` means the fuel ran out before the loop returned.
* Calls to the logger have no effect on control flow and are not modelled,
  except that the log line of the timeout branch is kept as the event
  `Event.timedOut`, carrying the error value it records.
-/

namespace NightOwl

/-! ## Runtime panics -/

/-- Run-time panics of the Go runtime that the embedded code can raise. -/
inductive Panic where
  | makesliceLenOutOfRange
  | indexOutOfRange (index : Int) (length : Nat)
  | interfaceConversion (key : String) (wanted : String)
  deriving DecidableEq, Repr

/-! ## controller/rng.go: constants and `random` -/

/-- Constant `hexBytes` of `controller/rng.go`. -/
def hexBytes : String := "0123456789abcdef"

/-- Variable `RandNumNotFound`: the message of the error value. -/
def RandNumNotFound : String := "timeout - random number not found"

/-- A `rand.Source`, given by the sequence of values its successive calls of
`Int63` return. The interface does not force the values to be non-negative. -/
structure Source where
  draws : Nat → Int

/-- One call of `src.Int63()`: the value drawn and the source afterwards. -/
def Source.Int63 (src : Source) : Int × Source :=
  (src.draws 0, ⟨fun i => src.draws (i + 1)⟩)

/-- Go's `s[i]` on a string: the byte at index `i`, or an index-out-of-range
panic. Only used on `hexBytes`, whose bytes are ASCII characters. -/
def indexString (s : String) (i : Int) : Except Panic Char :=
  if 0 ≤ i then
    match s.data.get? i.toNat with
    | some c => .ok c
    | none => .error (.indexOutOfRange i s.length)
  else .error (.indexOutOfRange i s.length)

/-- The loop `for i := range b` of `random`, over the `k` remaining positions:
each iteration draws once and stores `hexBytes[src.Int63() % int64(len(hexBytes))]`.
Go's `%` truncates towards zero (`Int.tmod`). -/
def randomLoop : Nat → Source → Except Panic (List Char × Source)
  | 0, src => .ok ([], src)
  | k + 1, src =>
    match indexString hexBytes (Int.tmod src.Int63.1 (hexBytes.length : Int)) with
    | .error p => .error p
    | .ok c =>
      match randomLoop k src.Int63.2 with
      | .error p => .error p
      | .ok (cs, src1) => .ok (c :: cs, src1)

/-- The runtime's `maxAlloc`, the largest size `make` accepts, on the 64-bit
platforms (48 address bits). -/
def maxAlloc : Nat := 2 ^ 48

/-- Function `random(n, src)`: `make([]byte, n)` panics (`makeslice: len out of
range`) on a negative `n` and on an `n` above `maxAlloc`; otherwise the loop
fills the `n` bytes and the result is `string(b)`. The source after the call is
returned as well. Memory is taken to be available up to `maxAlloc`. -/
def random (n : Int) (src : Source) : Except Panic (String × Source) :=
  if n < 0 ∨ (maxAlloc : Int) < n then .error .makesliceLenOutOfRange
  else
    match randomLoop n.toNat src with
    | .error p => .error p
    | .ok (b, src1) => .ok (String.mk b, src1)

/-- The standard library's `rand.NewSource(seed)`. Its `Int63` returns the raw
64-bit output masked to 63 bits; the generator producing the raw output
(`gen seed i` is the `i`-th raw value) is a parameter. -/
def NewSource (gen : Int → Nat → Nat) (seed : Int) : Source :=
  ⟨fun i => ((gen seed i % 2 ^ 63 : Nat) : Int)⟩

/-! ## Time, store, bus, events -/

/-- Go's `time.Second`; a `time.Duration` is a natural number of nanoseconds. -/
def Second : Nat := 1000000000

/-- The conversion `[]byte(s)`. -/
def goBytes (s : String) : List UInt8 := s.toUTF8.data.toList

/-- The history of the shared store as seen by one goroutine: `hist t id` is
what `rng.GetRandHashMap().Get(id)` returns at elapsed time `t`, the value and
the found flag. The store itself (package `services/rng`) is a parameter. -/
abbrev History := Nat → String → String × Bool

/-- The bus connection `nc`: `nc topic payload` is the error returned by
`nc.Publish(topic, payload)`, `none` for `nil`. -/
abbrev Conn := String → List UInt8 → Option String

/-- What a goroutine does, in order. -/
inductive Event where
  | get (t : Nat) (boxId : String)
  | publish (t : Nat) (topic : String) (payload : List UInt8) (err : Option String)
  | timedOut (t : Nat) (err : String)
  deriving DecidableEq, Repr

/-- The publishes of a trace: topic and payload of each, in order. -/
def publishes : List Event → List (String × List UInt8)
  | [] => []
  | .publish _ topic payload _ :: es => (topic, payload) :: publishes es
  | _ :: es => publishes es

/-- The store lookups of a trace: elapsed time of each, in order. -/
def lookups : List Event → List Nat
  | [] => []
  | .get t _ :: es => t :: lookups es
  | _ :: es => lookups es

/-! ## controller/rng.go: the goroutine of `SendRandNum` -/

/-- The loop of the goroutine started by `SendRandNum`, entered at elapsed time
`t`. `case <-timeout.C` is taken when the 120-second ticker is ready and
records `RandNumNotFound`; otherwise the `default` branch looks `boxId` up,
publishes and returns on a hit, and sleeps 5 seconds on a miss. -/
def sendRandNumLoop (hist : History) (nc : Conn) (game boxId walletAddr : String) :
    Nat → Nat → Option (List Event)
  | 0, _ => none
  | fuel + 1, t =>
    if 120 * Second ≤ t then
      some [.timedOut t RandNumNotFound]
    else if (hist t boxId).2 then
      some [.get t boxId,
            .publish t (game ++ "." ++ walletAddr) (goBytes (hist t boxId).1)
              (nc (game ++ "." ++ walletAddr) (goBytes (hist t boxId).1))]
    else
      (sendRandNumLoop hist nc game boxId walletAddr fuel (t + 5 * Second)).map
        (fun evs => .get t boxId :: evs)

/-- The goroutine `go func(game, boxId, walletAddr, nc)` of `SendRandNum`: the
loop entered at elapsed time 0. 25 iterations always suffice
(`sendRandNumLoop_fuel`). -/
def sendRandNumWorker (hist : History) (nc : Conn) (game boxId walletAddr : String) :
    Option (List Event) :=
  sendRandNumLoop hist nc game boxId walletAddr 25 0

/-! ## controller/rng.go: the goroutine of `SendTestRandNum` -/

/-- Function `wait(sleepTime, c)` started at elapsed time `start`: the instant
from which the value it sends is in the channel `c`. -/
def wait (sleepTime : Nat) (start : Nat) : Nat :=
  start + sleepTime

/-- The loop of the goroutine started by `SendTestRandNum`, entered at elapsed
time `t`: `case <-wake` is taken when the channel holds the value sent by
`wait` and publishes `randNum`; the empty `default` branch goes round again,
one round taking `spin`. -/
def sendTestRandNumLoop (nc : Conn) (walletAddr randNum : String) (wake spin : Nat) :
    Nat → Nat → Option (List Event)
  | 0, _ => none
  | fuel + 1, t =>
    if wake ≤ t then
      some [.publish t ("roulette." ++ walletAddr) (goBytes randNum)
              (nc ("roulette." ++ walletAddr) (goBytes randNum))]
    else
      sendTestRandNumLoop nc walletAddr randNum wake spin fuel (t + spin)

/-- The goroutine `go func(walletAddr, nc)` of `SendTestRandNum`: it seeds a
source from the clock (`now` is `time.Now().UnixNano()`), generates the
8-character token, starts `wait(10 * time.Second, wake)` and enters the loop. -/
def sendTestRandNumWorker (gen : Int → Nat → Nat) (now : Int) (nc : Conn)
    (walletAddr : String) (spin : Nat) (fuel : Nat) :
    Except Panic (Option (List Event)) :=
  match random 8 (NewSource gen now) with
  | .error p => .error p
  | .ok (randNum, _) =>
    .ok (sendTestRandNumLoop nc walletAddr randNum (wait (10 * Second) 0) spin fuel 0)

/-! ## controller/rng.go: the handlers -/

/-- Go's `url.Values`, the parsed query `req.URL.Query()`: keys with the list
of their values. -/
structure Values where
  entries : List (String × List String)

/-- Method `Values.Get`: the first value of the key, the empty string when the
key has none. -/
def Values.Get (v : Values) (key : String) : String :=
  match v.entries.lookup key with
  | some (x :: _) => x
  | _ => ""

/-- One `httprouter.Param`. -/
structure Param where
  Key : String
  Value : String

/-- Method `httprouter.Params.ByName`: the value of the first parameter with
that key, the empty string when there is none. -/
def ByName : List Param → String → String
  | [], _ => ""
  | p :: ps, name => if p.Key = name then p.Value else ByName ps name

/-- The part of `*http.Request` the handlers read. -/
structure Request where
  query : Values
  path : String

/-- The state of an `http.ResponseWriter`: headers set, status written (if
any), body written. -/
structure ResponseWriter where
  header : List (String × String)
  status : Option Nat
  body : String
  deriving DecidableEq, Repr

/-- The writer a handler receives: nothing set or written yet. -/
def ResponseWriter.fresh : ResponseWriter := ⟨[], none, ""⟩

/-- Method `w.Header().Set(key, value)`: replaces the values of the key. -/
def ResponseWriter.Set (w : ResponseWriter) (key value : String) : ResponseWriter :=
  { w with header := (w.header.filter (fun kv => kv.1 != key)) ++ [(key, value)] }

/-- Method `w.WriteHeader(code)`: only the first call takes effect. -/
def ResponseWriter.WriteHeader (w : ResponseWriter) (code : Nat) : ResponseWriter :=
  match w.status with
  | some _ => w
  | none => { w with status := some code }

/-- The call `fmt.Fprintf(w, s)` with a format without verbs: writes `s`,
after an implicit `WriteHeader(200)` when no status was written. -/
def ResponseWriter.Fprintf (w : ResponseWriter) (s : String) : ResponseWriter :=
  let w1 := w.WriteHeader 200
  { w1 with body := w1.body ++ s }

/-- Constant `http.StatusOK`. -/
def StatusOK : Nat := 200

/-- The goroutine started by the `go` statement of `SendRandNum`, with the
arguments it was given. -/
structure Goroutine where
  game : String
  boxId : String
  walletAddr : String
  nc : Conn

/-- Running a goroutine of `SendRandNum` against a history of the store. -/
def Goroutine.run (g : Goroutine) (hist : History) : Option (List Event) :=
  sendRandNumWorker hist g.nc g.game g.boxId g.walletAddr

/-- The goroutine started by the `go` statement of `SendTestRandNum`. -/
structure TestGoroutine where
  walletAddr : String
  nc : Conn

/-- What a handler call leaves behind: the response written and the goroutines
started. -/
structure Handled (γ : Type) where
  w : ResponseWriter
  spawned : List γ

/-- Handler returned by `SendRandNum(nc)`. -/
def SendRandNum (nc : Conn) (w : ResponseWriter) (req : Request) (params : List Param) :
    Handled Goroutine :=
  let w := w.Set "Access-Control-Allow-Origin" "*"
  let w := w.Set "Access-Control-Allow-Headers" "Content-Type"
  let boxId := req.query.Get "boxId"
  let walletAddr := req.query.Get "walletAddr"
  let game := ByName params "game"
  let spawned := [Goroutine.mk game boxId walletAddr nc]
  let w := w.WriteHeader StatusOK
  let w := w.Fprintf ""
  ⟨w, spawned⟩

/-- Handler returned by `SendTestRandNum(nc)`. -/
def SendTestRandNum (nc : Conn) (w : ResponseWriter) (req : Request) (_params : List Param) :
    Handled TestGoroutine :=
  let w := w.Set "Access-Control-Allow-Origin" "*"
  let w := w.Set "Access-Control-Allow-Headers" "Content-Type"
  let walletAddr := req.query.Get "walletAddr"
  let spawned := [TestGoroutine.mk walletAddr nc]
  let w := w.WriteHeader StatusOK
  let w := w.Fprintf ""
  ⟨w, spawned⟩

/-- One request served by `SendRandNum`: the response, and the trace of every
goroutine the handler started, run against the history of the store. -/
def serveSendRandNum (hist : History) (nc : Conn) (req : Request) (params : List Param) :
    ResponseWriter × List (Option (List Event)) :=
  ((SendRandNum nc ResponseWriter.fresh req params).w,
   (SendRandNum nc ResponseWriter.fresh req params).spawned.map (fun g => g.run hist))

/-! ## cmd/rng.go: start-up of the `rng-svc` command -/

/-- A configuration value as `viper.Get` returns it (an `interface` value):
a string, an `int`, or a value of another dynamic type. -/
inductive Value where
  | str (s : String)
  | int (n : Int)
  | other
  deriving DecidableEq, Repr

/-- The state of viper: the keys set with `viper.Set`, which take precedence,
and the keys of the configuration sources. -/
structure Viper where
  override : List (String × Value)
  config : List (String × Value)
  deriving DecidableEq, Repr

/-- Function `viper.Get(key)`; `none` is the `nil` interface value. -/
def Viper.Get (v : Viper) (key : String) : Option Value :=
  match v.override.lookup key with
  | some x => some x
  | none => v.config.lookup key

/-- Function `viper.Set(key, value)`. -/
def Viper.Set (v : Viper) (key : String) (value : Value) : Viper :=
  { v with override := (key, value) :: v.override }

/-- The environment of the command: the configuration, and the outcome of each
call that can fail (`none` is a `nil` error). -/
structure Env where
  viper : Viper
  natsConnect : String → Option String
  redisPing : Option String
  newService : Option String

/-- The calls of the command that reach outside the process or build the
server, in order. -/
inductive Step where
  | natsConnect (endpoint : String)
  | redisPing (addr : String)
  | newService
  | newRouter (name : String)
  | newServer (port : Int)
  | serverStart
  | serverWait
  deriving DecidableEq, Repr

/-- How the command ends: `os.Exit(code)`, an unrecovered panic, or serving
(blocked in `server.Wait()`). -/
inductive Outcome where
  | exit (code : Nat)
  | panic (p : Panic)
  | serving
  deriving DecidableEq, Repr

/-- The exit status of the process: the argument of `os.Exit`, 2 for an
unrecovered panic, none while serving. -/
def Outcome.exitStatus : Outcome → Option Nat
  | .exit code => some code
  | .panic _ => some 2
  | .serving => none

/-- A run of the command. -/
structure Run where
  steps : List Step
  outcome : Outcome
  viper : Viper
  deriving DecidableEq, Repr

/-- Constant `nats.DefaultURL`. -/
def DefaultURL : String := "nats://127.0.0.1:4222"

/-- Lines 36-40 of `cmd/rng.go`: `natsEndpoint` is `value.(string)` when
`nats.endpoint` is set, a type assertion that panics on a value that is not a
string, and `nats.DefaultURL` otherwise. -/
def natsEndpointOf (v : Viper) : Except Panic String :=
  match v.Get "nats.endpoint" with
  | some (.str s) => .ok s
  | some _ => .error (.interfaceConversion "nats.endpoint" "string")
  | none => .ok DefaultURL

/-- Lines 42-48 of `cmd/rng.go`: the defaults set when a key is absent. -/
def setDefaults (v : Viper) : Viper :=
  let v1 := if (v.Get "nats.random_number_subj").isNone then
      v.Set "nats.random_number_subj" (.str "drand.hash") else v
  if (v1.Get "rng.port").isNone then v1.Set "rng.port" (.str "8089") else v1

/-- The `Run` function of `rngSvcCommand`. The logger set-up and
`config.SetLoggingDefaults` come first and are taken not to fail nor to touch
the keys read here. -/
def rngSvcCommand (env : Env) : Run :=
  match natsEndpointOf env.viper with
  | .error p => ⟨[], .panic p, env.viper⟩
  | .ok natsEndpoint =>
    let v := setDefaults env.viper
    if (v.Get "ergo_node.api_key").isNone then ⟨[], .exit 1, v⟩
    else if (v.Get "ergo_node.wallet_password").isNone then ⟨[], .exit 1, v⟩
    else
      match env.natsConnect natsEndpoint with
      | some _ => ⟨[.natsConnect natsEndpoint], .exit 1, v⟩
      | none =>
        match env.redisPing with
        | some _ => ⟨[.natsConnect natsEndpoint, .redisPing "localhost:6379"], .exit 1, v⟩
        | none =>
          match env.newService with
          | some _ =>
            ⟨[.natsConnect natsEndpoint, .redisPing "localhost:6379", .newService], .exit 1, v⟩
          | none =>
            match v.Get "rng.port" with
            | some (.int port) =>
              ⟨[.natsConnect natsEndpoint, .redisPing "localhost:6379", .newService,
                .newRouter "rng", .newServer port, .serverStart, .serverWait], .serving, v⟩
            | _ =>
              ⟨[.natsConnect natsEndpoint, .redisPing "localhost:6379", .newService,
                .newRouter "rng"], .panic (.interfaceConversion "rng.port" "int"), v⟩

/-! ## Lookup instants of the goroutine of `SendRandNum` -/

/-- The elapsed time of the `k`-th lookup (counting from 0) of the goroutine
of `SendRandNum`: `k` sleeps of 5 seconds after its start. -/
def pollInstant (k : Nat) : Nat := k * (5 * Second)

/-- The first `d` lookups from the `j`-th on, all misses. -/
def misses (boxId : String) (j d : Nat) : List Event :=
  (List.range d).map (fun i => Event.get (pollInstant (j + i)) boxId)

/-! ## Concrete inputs used by the examples -/

/-- A history in which the value of "box123" is written 7 seconds after the
start of the goroutine and stays. -/
def earlyHistory : History :=
  fun t id => if id = "box123" ∧ 7 * Second ≤ t then ("a1b2c3d4", true) else ("", false)

/-- A history in which the value of "box123" is written 116 seconds after the
start of the goroutine, within the 120-second deadline, and stays. -/
def lateHistory : History :=
  fun t id => if id = "box123" ∧ 116 * Second ≤ t then ("a1b2c3d4", true) else ("", false)

/-- A history without any value at any time. -/
def emptyHistory : History := fun _ _ => ("", false)

/-- The history `earlyHistory` with another round, "box999", present from the
start. -/
def busyHistory : History :=
  fun t id => if id = "box999" then ("ffff0000", true) else earlyHistory t id

/-- A bus connection whose publishes all succeed. -/
def okConn : Conn := fun _ _ => none

/-- A history in which the empty round identifier has the value "v". -/
def blankHistory : History := fun _ id => if id = "" then ("v", true) else ("", false)

/-- A request without query parameters. -/
def bareRequest : Request := ⟨⟨[]⟩, "/api/v1/random-number/"⟩

/-- A raw generator for the examples. -/
def countingGen : Int → Nat → Nat := fun seed i => seed.toNat + 7 * i

/-- An environment with both credentials, no `rng.port`, and every connection
succeeding. -/
def defaultPortEnv : Env :=
  ⟨⟨[], [("ergo_node.api_key", .str "key"), ("ergo_node.wallet_password", .str "pass")]⟩,
   fun _ => none, none, none⟩

/-- An environment without credentials whose `nats.endpoint` is a number. -/
def numericEndpointEnv : Env :=
  ⟨⟨[], [("nats.endpoint", .int 4222)]⟩, fun _ => none, none, none⟩

/-- An environment with both credentials in which the bus is unreachable. -/
def busDownEnv : Env :=
  ⟨⟨[], [("ergo_node.api_key", .str "key"), ("ergo_node.wallet_password", .str "pass"),
         ("rng.port", .int 8089)]⟩,
   fun _ => some "nats: no servers available for connection", none, none⟩

/-! ## Properties of `random` -/

theorem hexBytes_data_length : hexBytes.data.length = 16 := by decide

theorem indexString_hexBytes (v : Int) (hv : 0 ≤ v) :
    ∃ c, indexString hexBytes (Int.tmod v (hexBytes.length : Int)) = .ok c ∧
      hexBytes.data.get? (v % 16).toNat = some c := by
  have hlen : (hexBytes.length : Int) = 16 := by decide
  have h16 : (0 : Int) < 16 := by norm_num
  have hmod : Int.tmod v 16 = v % 16 := Int.tmod_eq_emod hv (le_of_lt h16)
  have h0 : 0 ≤ v % 16 := Int.emod_nonneg v (by norm_num)
  have h1 : v % 16 < 16 := Int.emod_lt_of_pos v h16
  have hlt : (v % 16).toNat < hexBytes.data.length := by
    rw [hexBytes_data_length]; omega
  refine ⟨hexBytes.data.get ⟨(v % 16).toNat, hlt⟩, ?_, ?_⟩
  · rw [hlen, hmod]
    unfold indexString
    rw [if_pos h0, List.get?_eq_get hlt]
  · exact List.get?_eq_get hlt

theorem randomLoop_spec (k : Nat) : ∀ (src : Source), (∀ i, i < k → 0 ≤ src.draws i) →
    ∃ cs, randomLoop k src = .ok (cs, ⟨fun i => src.draws (i + k)⟩) ∧ cs.length = k ∧
      ∀ i, i < k → cs.get? i = hexBytes.data.get? (src.draws i % 16).toNat := by
  induction k with
  | zero =>
    intro src _
    exact ⟨[], rfl, rfl, fun i hi => absurd hi (Nat.not_lt_zero i)⟩
  | succ k ih =>
    intro src h
    obtain ⟨c, hc, hget⟩ := indexString_hexBytes (src.draws 0) (h 0 (Nat.succ_pos k))
    obtain ⟨cs, hcs, hl, hi⟩ := ih ⟨fun i => src.draws (i + 1)⟩
      (fun i hik => h (i + 1) (Nat.succ_lt_succ hik))
    refine ⟨c :: cs, ?_, by simp [hl], ?_⟩
    · have hc1 : indexString hexBytes (Int.tmod src.Int63.1 (hexBytes.length : Int)) = .ok c := hc
      have hcs1 : randomLoop k src.Int63.2 = .ok (cs, ⟨fun i => src.draws (i + (k + 1))⟩) := hcs
      simp only [randomLoop, hc1, hcs1]
    · intro i hik
      cases i with
      | zero => simpa using hget.symm
      | succ j => simpa using hi j (Nat.lt_of_succ_lt_succ hik)

/-- On a source whose first `n` draws are non-negative, `random n src` returns
a token of `n` characters and leaves the source `n` draws further. -/
theorem random_returns (n : Int) (src : Source) (hn : 0 ≤ n) (hmax : n ≤ (maxAlloc : Int))
    (hsrc : ∀ i, i < n.toNat → 0 ≤ src.draws i) :
    ∃ tok, random n src = .ok (tok, ⟨fun i => src.draws (i + n.toNat)⟩) ∧
      tok.length = n.toNat := by
  obtain ⟨cs, hcs, hl, _⟩ := randomLoop_spec n.toNat src hsrc
  refine ⟨String.mk cs, ?_, ?_⟩
  · have hneg : ¬ (n < 0 ∨ (maxAlloc : Int) < n) := fun h =>
      h.elim (fun h1 => absurd hn (not_le.mpr h1)) (fun h2 => absurd hmax (not_le.mpr h2))
    simp only [random, if_neg hneg, hcs]
  · simpa [String.length] using hl

/-- Claim C10, as stated, fails: `n = 2 ^ 62` is a non-negative `int` and the
source drawing 0 for ever has non-negative draws, but `make([]byte, n)` panics
above the allocation limit, so `random` returns no token. -/
theorem random_huge_length_panics :
    (0 : Int) ≤ 2 ^ 62 ∧ (∀ i, 0 ≤ (Source.mk (fun _ => 0)).draws i) ∧
    random (2 ^ 62) ⟨fun _ => 0⟩ = .error .makesliceLenOutOfRange :=
  ⟨by decide, fun _ => le_refl 0, rfl⟩

/-- Claim C10, amended. For `0 ≤ n ≤ maxAlloc` (the allocation limit of the
runtime) and a source with non-negative draws, `random n src`
returns a token of exactly `n` characters and leaves the source advanced by
exactly `n` draws; the index `v_i % 16` is within `hexBytes`, the `i`-th
character is `hexBytes[v_i mod 16]`, every character is a hexadecimal digit of
`hexBytes`, and any source with the same first `n` draws yields the same
token. -/
theorem random_spec (n : Int) (src : Source) (hn : 0 ≤ n) (hmax : n ≤ (maxAlloc : Int))
    (hsrc : ∀ i, 0 ≤ src.draws i) :
    ∃ tok, random n src = .ok (tok, ⟨fun i => src.draws (i + n.toNat)⟩) ∧
      tok.length = n.toNat ∧
      (∀ i, i < n.toNat →
        0 ≤ Int.tmod (src.draws i) 16 ∧
        (Int.tmod (src.draws i) 16).toNat < hexBytes.length ∧
        Int.tmod (src.draws i) 16 = src.draws i % 16 ∧
        tok.data.get? i = hexBytes.data.get? (src.draws i % 16).toNat) ∧
      (∀ c, c ∈ tok.data → c ∈ "0123456789abcdef".data) ∧
      (∀ src2 : Source, (∀ i, i < n.toNat → src2.draws i = src.draws i) →
        (random n src2).map Prod.fst = .ok tok) := by
  obtain ⟨cs, hcs, hl, hi⟩ := randomLoop_spec n.toNat src (fun i _ => hsrc i)
  have hneg : ¬ (n < 0 ∨ (maxAlloc : Int) < n) := fun h =>
    h.elim (fun h1 => absurd hn (not_le.mpr h1)) (fun h2 => absurd hmax (not_le.mpr h2))
  refine ⟨String.mk cs, ?_, ?_, ?_, ?_, ?_⟩
  · simp only [random, if_neg hneg, hcs]
  · simpa [String.length] using hl
  · intro i hin
    have h16 : (0 : Int) < 16 := by norm_num
    have hmod : Int.tmod (src.draws i) 16 = src.draws i % 16 :=
      Int.tmod_eq_emod (hsrc i) (le_of_lt h16)
    have h0 : 0 ≤ src.draws i % 16 := Int.emod_nonneg _ (by norm_num)
    have h1 : src.draws i % 16 < 16 := Int.emod_lt_of_pos _ h16
    have hlen : hexBytes.length = 16 := by decide
    refine ⟨by rw [hmod]; exact h0, by rw [hmod, hlen]; omega, hmod, hi i hin⟩
  · intro c hc
    obtain ⟨i, hlt, hget⟩ := List.getElem_of_mem hc
    have hlt2 : i < n.toNat := by simpa [hl] using hlt
    have h2 := hi i hlt2
    have h3 : cs.get? i = some c := by
      rw [List.get?_eq_get hlt]; simpa using hget
    rw [h3] at h2
    exact List.get?_mem h2.symm
  · intro src2 hagree
    obtain ⟨cs2, hcs2, hl2, hi2⟩ := randomLoop_spec n.toNat src2
      (fun i hin => by rw [hagree i hin]; exact hsrc i)
    have heq : cs2 = cs := by
      apply List.ext_get?
      intro i
      by_cases hin : i < n.toNat
      · rw [hi2 i hin, hi i hin, hagree i hin]
      · have ha : cs2.length ≤ i := by omega
        have hb : cs.length ≤ i := by omega
        rw [List.get?_eq_none.mpr ha, List.get?_eq_none.mpr hb]
    simp only [random, if_neg hneg, hcs2, heq]
    rfl

/-- Witness for claim C10: three draws 3, 10, 17 give the token "3a1". -/
theorem random_spec_witness :
    ∃ tok, random 3 ⟨fun i => 7 * i + 3⟩ = .ok (tok, ⟨fun i => 7 * ((i + 3 : Nat) : Int) + 3⟩) ∧
      tok.length = 3 :=
  let ⟨tok, h1, h2, _⟩ := random_spec 3 ⟨fun i => 7 * i + 3⟩ (by decide) (by decide)
    (fun i => by positivity)
  ⟨tok, h1, h2⟩

/-! ## The goroutine of `SendRandNum`: the shape of its trace -/

theorem misses_zero (boxId : String) (j : Nat) : misses boxId j 0 = [] := rfl

theorem misses_succ (boxId : String) (j d : Nat) :
    misses boxId j (d + 1) = Event.get (pollInstant j) boxId :: misses boxId (j + 1) d := by
  unfold misses
  rw [List.range_succ_eq_map, List.map_cons, List.map_map]
  refine congrArg₂ List.cons rfl (List.map_congr_left ?_)
  intro i _
  simp only [Function.comp, Nat.succ_eq_add_one]
  rw [Nat.add_assoc, Nat.add_comm 1 i]

theorem publishes_misses_append (boxId : String) (d : Nat) : ∀ (j : Nat) (l : List Event),
    publishes (misses boxId j d ++ l) = publishes l := by
  induction d with
  | zero => intro j l; rfl
  | succ d ih =>
    intro j l
    rw [misses_succ, List.cons_append]
    exact ih (j + 1) l

theorem pollInstant_succ (j : Nat) : pollInstant j + 5 * Second = pollInstant (j + 1) := by
  unfold pollInstant
  ring

theorem pollInstant_zero : pollInstant 0 = 0 := by
  unfold pollInstant
  exact Nat.zero_mul _

theorem pollInstant_lt (j : Nat) (h : j < 24) : ¬ 120 * Second ≤ pollInstant j := by
  simp only [pollInstant, Second]
  intro h3
  have h2 : j * (5 * 1000000000) ≤ 23 * (5 * 1000000000) :=
    Nat.mul_le_mul_right _ (Nat.le_of_lt_succ h)
  exact absurd (le_trans h3 h2) (by decide)

theorem pollInstant_deadline : pollInstant 24 = 120 * Second := by
  unfold pollInstant Second
  rfl

/-- From the `j`-th lookup on: `d` misses and then a hit. -/
theorem sendRandNumLoop_hit (hist : History) (nc : Conn) (game boxId walletAddr : String)
    (d : Nat) : ∀ (j fuel : Nat), j + d < 24 → d + 1 ≤ fuel →
    (∀ i, j ≤ i → i < j + d → (hist (pollInstant i) boxId).2 = false) →
    (hist (pollInstant (j + d)) boxId).2 = true →
    sendRandNumLoop hist nc game boxId walletAddr fuel (pollInstant j) =
      some (misses boxId j d ++
        [Event.get (pollInstant (j + d)) boxId,
         Event.publish (pollInstant (j + d)) (game ++ "." ++ walletAddr)
           (goBytes (hist (pollInstant (j + d)) boxId).1)
           (nc (game ++ "." ++ walletAddr) (goBytes (hist (pollInstant (j + d)) boxId).1))]) := by
  induction d with
  | zero =>
    intro j fuel hj hf _ hhit
    obtain ⟨f, rfl⟩ : ∃ f, fuel = f + 1 := ⟨fuel - 1, by omega⟩
    rw [Nat.add_zero] at hhit hj ⊢
    rw [sendRandNumLoop, if_neg (pollInstant_lt j hj), if_pos hhit]
    rfl
  | succ d ih =>
    intro j fuel hj hf hmiss hhit
    obtain ⟨f, rfl⟩ : ∃ f, fuel = f + 1 := ⟨fuel - 1, by omega⟩
    have hm : (hist (pollInstant j) boxId).2 = false := hmiss j (le_refl j) (by omega)
    have hidx : j + (d + 1) = j + 1 + d := by omega
    rw [sendRandNumLoop, if_neg (pollInstant_lt j (by omega)), hm, pollInstant_succ]
    rw [hidx] at hhit ⊢
    rw [ih (j + 1) f (by omega) (by omega)
      (fun i h1 h2 => hmiss i (by omega) (by omega)) hhit, misses_succ]
    rfl

/-- From the `j`-th lookup on: misses up to the deadline, then the timeout
branch at 120 seconds. -/
theorem sendRandNumLoop_miss (hist : History) (nc : Conn) (game boxId walletAddr : String)
    (d : Nat) : ∀ (j fuel : Nat), j + d = 24 → d + 1 ≤ fuel →
    (∀ i, j ≤ i → i < 24 → (hist (pollInstant i) boxId).2 = false) →
    sendRandNumLoop hist nc game boxId walletAddr fuel (pollInstant j) =
      some (misses boxId j d ++ [Event.timedOut (120 * Second) RandNumNotFound]) := by
  induction d with
  | zero =>
    intro j fuel hj hf _
    obtain ⟨f, rfl⟩ : ∃ f, fuel = f + 1 := ⟨fuel - 1, by omega⟩
    have hj24 : j = 24 := by omega
    subst hj24
    rw [sendRandNumLoop, pollInstant_deadline, if_pos (le_refl _)]
    rfl
  | succ d ih =>
    intro j fuel hj hf hmiss
    obtain ⟨f, rfl⟩ : ∃ f, fuel = f + 1 := ⟨fuel - 1, by omega⟩
    have hm : (hist (pollInstant j) boxId).2 = false := hmiss j (le_refl j) (by omega)
    rw [sendRandNumLoop, if_neg (pollInstant_lt j (by omega)), hm, pollInstant_succ]
    rw [ih (j + 1) f (by omega) (by omega) (fun i h1 h2 => hmiss i (by omega) h2), misses_succ]
    rfl

/-- Either some lookup among the 24 hits, and then there is a first one, or
all of them miss. -/
theorem first_hit_or_none (hist : History) (boxId : String) :
    (∃ k, k < 24 ∧ (hist (pollInstant k) boxId).2 = true ∧
      ∀ j, j < k → (hist (pollInstant j) boxId).2 = false) ∨
    (∀ i, i < 24 → (hist (pollInstant i) boxId).2 = false) := by
  by_cases h : ∃ k, k < 24 ∧ (hist (pollInstant k) boxId).2 = true
  · left
    refine ⟨Nat.find h, (Nat.find_spec h).1, (Nat.find_spec h).2, ?_⟩
    intro j hj
    have hmin := Nat.find_min h hj
    have hlt : j < 24 := lt_trans hj (Nat.find_spec h).1
    cases hb : (hist (pollInstant j) boxId).2 with
    | false => rfl
    | true => exact absurd ⟨hlt, hb⟩ hmin
  · right
    intro i hi
    cases hb : (hist (pollInstant i) boxId).2 with
    | false => rfl
    | true => exact absurd ⟨i, hi, hb⟩ h

/-- The loop of `SendRandNum` returns within 25 iterations, and more fuel does
not change its result. -/
theorem sendRandNumLoop_fuel (hist : History) (nc : Conn) (game boxId walletAddr : String)
    (fuel : Nat) (hf : 25 ≤ fuel) :
    sendRandNumLoop hist nc game boxId walletAddr fuel 0 =
      sendRandNumWorker hist nc game boxId walletAddr ∧
    (sendRandNumWorker hist nc game boxId walletAddr).isSome = true := by
  unfold sendRandNumWorker
  rw [← pollInstant_zero]
  rcases first_hit_or_none hist boxId with ⟨k, hk, hhit, hmiss⟩ | hnone
  · have e1 := sendRandNumLoop_hit hist nc game boxId walletAddr k 0 fuel (by omega) (by omega)
      (fun i _ hi => hmiss i (by omega)) (by simpa using hhit)
    have e2 := sendRandNumLoop_hit hist nc game boxId walletAddr k 0 25 (by omega) (by omega)
      (fun i _ hi => hmiss i (by omega)) (by simpa using hhit)
    rw [e1, e2]
    exact ⟨rfl, rfl⟩
  · have e1 := sendRandNumLoop_miss hist nc game boxId walletAddr 24 0 fuel (by omega) (by omega)
      (fun i _ hi => hnone i hi)
    have e2 := sendRandNumLoop_miss hist nc game boxId walletAddr 24 0 25 (by omega) (by omega)
      (fun i _ hi => hnone i hi)
    rw [e1, e2]
    exact ⟨rfl, rfl⟩

/-- The trace of the goroutine when the `k`-th lookup is the first hit. -/
theorem sendRandNumWorker_hit (hist : History) (nc : Conn) (game boxId walletAddr : String)
    (k : Nat) (hk : k < 24) (hhit : (hist (pollInstant k) boxId).2 = true)
    (hmiss : ∀ j, j < k → (hist (pollInstant j) boxId).2 = false) :
    sendRandNumWorker hist nc game boxId walletAddr =
      some (misses boxId 0 k ++
        [Event.get (pollInstant k) boxId,
         Event.publish (pollInstant k) (game ++ "." ++ walletAddr)
           (goBytes (hist (pollInstant k) boxId).1)
           (nc (game ++ "." ++ walletAddr) (goBytes (hist (pollInstant k) boxId).1))]) := by
  have e := sendRandNumLoop_hit hist nc game boxId walletAddr k 0 25 (by omega) (by omega)
    (fun i _ hi => hmiss i (by omega)) (by simpa using hhit)
  rw [pollInstant_zero, Nat.zero_add] at e
  exact e

/-- The trace of the goroutine when all 24 lookups miss. -/
theorem sendRandNumWorker_miss (hist : History) (nc : Conn) (game boxId walletAddr : String)
    (hnone : ∀ i, i < 24 → (hist (pollInstant i) boxId).2 = false) :
    sendRandNumWorker hist nc game boxId walletAddr =
      some (misses boxId 0 24 ++ [Event.timedOut (120 * Second) RandNumNotFound]) := by
  have e := sendRandNumLoop_miss hist nc game boxId walletAddr 24 0 25 (by omega) (by omega)
    (fun i _ hi => hnone i hi)
  rw [pollInstant_zero] at e
  exact e

theorem sendRandNumLoop_congr (hist1 hist2 : History) (nc : Conn)
    (game boxId walletAddr : String) (h : ∀ t, hist1 t boxId = hist2 t boxId) (fuel : Nat) :
    ∀ t, sendRandNumLoop hist1 nc game boxId walletAddr fuel t =
      sendRandNumLoop hist2 nc game boxId walletAddr fuel t := by
  induction fuel with
  | zero => intro t; rfl
  | succ f ih =>
    intro t
    simp only [sendRandNumLoop, h t, ih (t + 5 * Second)]

/-! ## Claims about the goroutine of `SendRandNum` -/

/-- Claim C1, as stated, fails: in `lateHistory` the store holds the value of
"box123" from 116 seconds on, within the 120-second deadline, and keeps it;
the goroutine looks at 115 seconds, finds the ticker ready at 120 seconds and
ends without any publish. -/
theorem sendRandNum_late_value_not_published :
    (116 * Second ≤ 120 * Second ∧ lateHistory (116 * Second) "box123" = ("a1b2c3d4", true)) ∧
    (sendRandNumWorker lateHistory okConn "roulette" "box123" "9fE").map publishes = some [] := by
  decide

/-- Claim C1, amended. If one of the lookups of the goroutine (at 0, 5, ...,
115 seconds) finds a value for `boxId`, the goroutine performs exactly one
publish, on topic `game.walletAddr`, with the value returned by the first
lookup that finds one. -/
theorem sendRandNum_publishes_polled_value (hist : History) (nc : Conn)
    (game boxId walletAddr : String)
    (h : ∃ k, k < 24 ∧ (hist (pollInstant k) boxId).2 = true) :
    ∃ k evs, k < 24 ∧ (hist (pollInstant k) boxId).2 = true ∧
      (∀ j, j < k → (hist (pollInstant j) boxId).2 = false) ∧
      sendRandNumWorker hist nc game boxId walletAddr = some evs ∧
      publishes evs = [(game ++ "." ++ walletAddr, goBytes (hist (pollInstant k) boxId).1)] := by
  rcases first_hit_or_none hist boxId with ⟨k, hk, hhit, hmiss⟩ | hnone
  · refine ⟨k, _, hk, hhit, hmiss,
      sendRandNumWorker_hit hist nc game boxId walletAddr k hk hhit hmiss, ?_⟩
    rw [publishes_misses_append]
    rfl
  · obtain ⟨k, hk, hhit⟩ := h
    rw [hnone k hk] at hhit
    exact absurd hhit (by decide)

/-- Witness for claim C1 amended: the value written at 7 seconds is found by
the lookup at 10 seconds. -/
theorem sendRandNum_publishes_polled_value_witness :
    ∃ k evs, k < 24 ∧ (earlyHistory (pollInstant k) "box123").2 = true ∧
      (∀ j, j < k → (earlyHistory (pollInstant j) "box123").2 = false) ∧
      sendRandNumWorker earlyHistory okConn "roulette" "box123" "9fE" = some evs ∧
      publishes evs = [("roulette" ++ "." ++ "9fE",
        goBytes (earlyHistory (pollInstant k) "box123").1)] :=
  sendRandNum_publishes_polled_value earlyHistory okConn "roulette" "box123" "9fE"
    ⟨2, by decide, by decide⟩

/-- Claim C2. If `Get(boxId)` never reports found, the goroutine looks up 24
times, performs no publish, and ends on the timeout branch, recording
`RandNumNotFound`, at an elapsed time of 120 seconds, not earlier. -/
theorem sendRandNum_timeout (hist : History) (nc : Conn) (game boxId walletAddr : String)
    (h : ∀ t, (hist t boxId).2 = false) :
    ∃ evs t, sendRandNumWorker hist nc game boxId walletAddr = some evs ∧
      publishes evs = [] ∧
      evs = misses boxId 0 24 ++ [Event.timedOut t RandNumNotFound] ∧
      120 * Second ≤ t := by
  refine ⟨_, 120 * Second,
    sendRandNumWorker_miss hist nc game boxId walletAddr (fun i _ => h _), ?_, rfl, le_refl _⟩
  rw [publishes_misses_append]
  rfl

/-- Witness for claim C2: the empty history. -/
theorem sendRandNum_timeout_witness :
    ∃ evs t, sendRandNumWorker emptyHistory okConn "roulette" "box123" "9fE" = some evs ∧
      publishes evs = [] ∧
      evs = misses "box123" 0 24 ++ [Event.timedOut t RandNumNotFound] ∧
      120 * Second ≤ t :=
  sendRandNum_timeout emptyHistory okConn "roulette" "box123" "9fE" (fun _ => rfl)

/-- Claim C3. For every history of the store the goroutine returns and
publishes at most once; it publishes exactly when one of its 24 lookups (every
5 seconds, before the ticker is ready at 120 seconds) finds a value; and when
the `k`-th lookup is the first to find one, the trace is the lookups 0 to `k`
followed by the publish of the value that lookup returned, and nothing
after. -/
theorem sendRandNum_at_most_once (hist : History) (nc : Conn)
    (game boxId walletAddr : String) :
    ∃ evs, sendRandNumWorker hist nc game boxId walletAddr = some evs ∧
      (publishes evs).length ≤ 1 ∧
      (publishes evs ≠ [] ↔ ∃ k, k < 24 ∧ (hist (pollInstant k) boxId).2 = true) ∧
      (∀ k, k < 24 → (hist (pollInstant k) boxId).2 = true →
        (∀ j, j < k → (hist (pollInstant j) boxId).2 = false) →
        evs = misses boxId 0 k ++
          [Event.get (pollInstant k) boxId,
           Event.publish (pollInstant k) (game ++ "." ++ walletAddr)
             (goBytes (hist (pollInstant k) boxId).1)
             (nc (game ++ "." ++ walletAddr) (goBytes (hist (pollInstant k) boxId).1))]) := by
  rcases first_hit_or_none hist boxId with ⟨k, hk, hhit, hmiss⟩ | hnone
  · have hw := sendRandNumWorker_hit hist nc game boxId walletAddr k hk hhit hmiss
    refine ⟨_, hw, ?_, ?_, ?_⟩
    · rw [publishes_misses_append]
      exact le_refl 1
    · rw [publishes_misses_append]
      exact ⟨fun _ => ⟨k, hk, hhit⟩, fun _ => List.cons_ne_nil _ _⟩
    · intro k2 hk2 hhit2 hmiss2
      have hw2 := sendRandNumWorker_hit hist nc game boxId walletAddr k2 hk2 hhit2 hmiss2
      rw [hw] at hw2
      exact Option.some.inj hw2
  · have hw := sendRandNumWorker_miss hist nc game boxId walletAddr hnone
    refine ⟨_, hw, ?_, ?_, ?_⟩
    · rw [publishes_misses_append]
      exact Nat.zero_le 1
    · rw [publishes_misses_append]
      constructor
      · intro hne
        exact absurd rfl hne
      · rintro ⟨k, hk, hhit⟩
        rw [hnone k hk] at hhit
        exact absurd hhit (by decide)
    · intro k hk hhit _
      rw [hnone k hk] at hhit
      exact absurd hhit (by decide)

/-- Claim C8. Two histories of the store that agree on every lookup of
`boxId` give the goroutine the same trace (the same lookups and the same
publish, or the same timeout), whatever they hold for other rounds; and
every publish of the goroutine is on topic `game.walletAddr`. -/
theorem sendRandNum_independent_of_other_rounds (hist1 hist2 : History) (nc : Conn)
    (game boxId walletAddr : String) (h : ∀ t, hist1 t boxId = hist2 t boxId) :
    sendRandNumWorker hist1 nc game boxId walletAddr =
      sendRandNumWorker hist2 nc game boxId walletAddr ∧
    ∃ evs, sendRandNumWorker hist1 nc game boxId walletAddr = some evs ∧
      ∀ p, p ∈ publishes evs → p.1 = game ++ "." ++ walletAddr := by
  refine ⟨sendRandNumLoop_congr hist1 hist2 nc game boxId walletAddr h 25 0, ?_⟩
  rcases first_hit_or_none hist1 boxId with ⟨k, hk, hhit, hmiss⟩ | hnone
  · refine ⟨_, sendRandNumWorker_hit hist1 nc game boxId walletAddr k hk hhit hmiss, ?_⟩
    rw [publishes_misses_append]
    intro p hp
    rw [show p = (game ++ "." ++ walletAddr, goBytes (hist1 (pollInstant k) boxId).1) from
      List.mem_singleton.mp hp]
  · refine ⟨_, sendRandNumWorker_miss hist1 nc game boxId walletAddr hnone, ?_⟩
    rw [publishes_misses_append]
    intro p hp
    exact absurd hp (List.not_mem_nil p)

/-- Witness for claim C8: `busyHistory` holds another round, "box999", that
`earlyHistory` does not, and the goroutine for "box123" behaves the same. -/
theorem sendRandNum_independent_of_other_rounds_witness :
    busyHistory 0 "box999" ≠ earlyHistory 0 "box999" ∧
    (sendRandNumWorker earlyHistory okConn "roulette" "box123" "9fE" =
      sendRandNumWorker busyHistory okConn "roulette" "box123" "9fE" ∧
    ∃ evs, sendRandNumWorker earlyHistory okConn "roulette" "box123" "9fE" = some evs ∧
      ∀ p, p ∈ publishes evs → p.1 = "roulette" ++ "." ++ "9fE") :=
  ⟨by decide,
   sendRandNum_independent_of_other_rounds earlyHistory busyHistory okConn
     "roulette" "box123" "9fE" (fun _ => rfl)⟩

/-! ## Claims about the handlers -/

/-- Claim C4. The goroutine started for a request gets exactly the strings of
the path parameter `game` and of the query keys `boxId` and `walletAddr`, a
present one unchanged and an absent one as the empty string; every publish of
that goroutine is on topic `game ++ "." ++ walletAddr`, which is "." when
both are absent, and its payload is `[]byte` of the value a lookup of the
store returned. -/
theorem sendRandNum_parameters_verbatim (hist : History) (nc : Conn) (req : Request)
    (params : List Param) :
    (SendRandNum nc ResponseWriter.fresh req params).spawned =
      [⟨ByName params "game", req.query.Get "boxId", req.query.Get "walletAddr", nc⟩] ∧
    (serveSendRandNum hist nc req params).2 =
      [sendRandNumWorker hist nc (ByName params "game") (req.query.Get "boxId")
        (req.query.Get "walletAddr")] ∧
    (∀ (value : String) (rest : List Param),
      ByName (⟨"game", value⟩ :: rest) "game" = value) ∧
    ((∀ p, p ∈ params → p.Key ≠ "game") → ByName params "game" = "") ∧
    (∀ (key value : String) (more : List String) (rest : List (String × List String)),
      Values.Get ⟨(key, value :: more) :: rest⟩ key = value) ∧
    (∀ key, req.query.entries.lookup key = none → req.query.Get key = "") ∧
    ((∀ p, p ∈ params → p.Key ≠ "game") → req.query.entries.lookup "walletAddr" = none →
      ByName params "game" ++ "." ++ req.query.Get "walletAddr" = ".") ∧
    (∃ evs, sendRandNumWorker hist nc (ByName params "game") (req.query.Get "boxId")
        (req.query.Get "walletAddr") = some evs ∧
      ∀ p, p ∈ publishes evs →
        p.1 = ByName params "game" ++ "." ++ req.query.Get "walletAddr" ∧
        ∃ k, k < 24 ∧ (hist (pollInstant k) (req.query.Get "boxId")).2 = true ∧
          p.2 = goBytes (hist (pollInstant k) (req.query.Get "boxId")).1 ∧
          p.2 = (hist (pollInstant k) (req.query.Get "boxId")).1.toUTF8.data.toList) := by
  have hby : (∀ p, p ∈ params → p.Key ≠ "game") → ByName params "game" = "" := by
    intro h
    induction params with
    | nil => rfl
    | cons p ps ih =>
      rw [ByName, if_neg (h p (List.mem_cons_self p ps))]
      exact ih (fun q hq => h q (List.mem_cons_of_mem p hq))
  have hget : ∀ key, req.query.entries.lookup key = none → req.query.Get key = "" := by
    intro key h
    simp only [Values.Get, h]
  refine ⟨rfl, rfl, ?_, hby, ?_, hget, ?_, ?_⟩
  · intro value rest
    simp [ByName]
  · intro key value more rest
    simp [Values.Get, List.lookup]
  · intro h1 h2
    rw [hby h1, hget _ h2]
    rfl
  · rcases first_hit_or_none hist (req.query.Get "boxId") with ⟨k, hk, hhit, hmiss⟩ | hnone
    · refine ⟨_, sendRandNumWorker_hit hist nc _ _ _ k hk hhit hmiss, ?_⟩
      rw [publishes_misses_append]
      intro p hp
      rw [show p = (ByName params "game" ++ "." ++ req.query.Get "walletAddr",
        goBytes (hist (pollInstant k) (req.query.Get "boxId")).1) from List.mem_singleton.mp hp]
      exact ⟨rfl, k, hk, hhit, rfl, rfl⟩
    · refine ⟨_, sendRandNumWorker_miss hist nc _ _ _ hnone, ?_⟩
      rw [publishes_misses_append]
      intro p hp
      exact absurd hp (List.not_mem_nil p)

/-- Example for claim C4: a request with neither `game` nor `walletAddr` nor
`boxId`, the store holding "v" for the empty round identifier: the topic is
"." and the payload the single byte of "v". -/
theorem sendRandNum_parameters_verbatim_witness :
    (serveSendRandNum blankHistory okConn bareRequest []).2.map (Option.map publishes) =
      [some [(".", [118])]] ∧
    ByName [] "game" ++ "." ++ bareRequest.query.Get "walletAddr" = "." :=
  ⟨by decide,
   (sendRandNum_parameters_verbatim blankHistory okConn bareRequest []).2.2.2.2.2.2.1
     (fun p hp => absurd hp (List.not_mem_nil p)) rfl⟩

/-- Claim C5. Whatever the store holds or will hold and whether or not
publishes fail, the handler starts exactly one goroutine, bound to the
parameters of the request, and writes the same response: status 200, empty
body (and the two CORS headers). -/
theorem sendRandNum_response_constant (hist1 hist2 : History) (nc1 nc2 : Conn)
    (req : Request) (params : List Param) :
    (serveSendRandNum hist1 nc1 req params).1 = (serveSendRandNum hist2 nc2 req params).1 ∧
    (serveSendRandNum hist1 nc1 req params).1 =
      ⟨[("Access-Control-Allow-Origin", "*"), ("Access-Control-Allow-Headers", "Content-Type")],
       some 200, ""⟩ ∧
    (SendRandNum nc1 ResponseWriter.fresh req params).spawned =
      [⟨ByName params "game", req.query.Get "boxId", req.query.Get "walletAddr", nc1⟩] ∧
    (serveSendRandNum hist1 nc1 req params).2.length = 1 := by
  exact ⟨rfl, rfl, rfl, rfl⟩

/-! ## The goroutine of `SendTestRandNum` -/

theorem NewSource_nonneg (gen : Int → Nat → Nat) (seed : Int) (i : Nat) :
    0 ≤ (NewSource gen seed).draws i :=
  Int.ofNat_nonneg _

/-- With `f` rounds enough to reach the wake instant, the loop returns after a
single publish, made at the first round at or after that instant. -/
theorem sendTestRandNumLoop_returns (nc : Conn) (walletAddr randNum : String)
    (wake spin : Nat) (f : Nat) : ∀ t, wake ≤ t + f * spin →
    ∃ t2, sendTestRandNumLoop nc walletAddr randNum wake spin (f + 1) t =
        some [Event.publish t2 ("roulette." ++ walletAddr) (goBytes randNum)
          (nc ("roulette." ++ walletAddr) (goBytes randNum))] ∧
      wake ≤ t2 ∧ (t2 = t ∨ t2 < wake + spin) := by
  induction f with
  | zero =>
    intro t h
    have hw : wake ≤ t := by simpa using h
    exact ⟨t, by rw [sendTestRandNumLoop, if_pos hw], hw, Or.inl rfl⟩
  | succ f ih =>
    intro t h
    by_cases hw : wake ≤ t
    · exact ⟨t, by rw [sendTestRandNumLoop, if_pos hw], hw, Or.inl rfl⟩
    · obtain ⟨t2, h1, h2, h3⟩ := ih (t + spin) (by rw [Nat.succ_mul] at h; omega)
      refine ⟨t2, ?_, h2, Or.inr ?_⟩
      · rw [sendTestRandNumLoop, if_neg hw]
        exact h1
      · rcases h3 with h3 | h3
        · omega
        · exact h3

/-- More fuel does not change what the loop returned. -/
theorem sendTestRandNumLoop_mono (nc : Conn) (walletAddr randNum : String)
    (wake spin : Nat) (fuel : Nat) : ∀ (t : Nat) (evs : List Event),
    sendTestRandNumLoop nc walletAddr randNum wake spin fuel t = some evs →
    sendTestRandNumLoop nc walletAddr randNum wake spin (fuel + 1) t = some evs := by
  induction fuel with
  | zero =>
    intro t evs h
    simp [sendTestRandNumLoop] at h
  | succ f ih =>
    intro t evs h
    by_cases hw : wake ≤ t
    · rw [sendTestRandNumLoop, if_pos hw] at h ⊢
      exact h
    · rw [sendTestRandNumLoop, if_neg hw] at h ⊢
      exact ih _ _ h

theorem sendTestRandNumLoop_mono_le (nc : Conn) (walletAddr randNum : String)
    (wake spin : Nat) (t : Nat) (evs : List Event) (fuel : Nat)
    (h : sendTestRandNumLoop nc walletAddr randNum wake spin fuel t = some evs) :
    ∀ d, sendTestRandNumLoop nc walletAddr randNum wake spin (fuel + d) t = some evs := by
  intro d
  induction d with
  | zero => exact h
  | succ d ih => exact sendTestRandNumLoop_mono nc walletAddr randNum wake spin _ t evs ih

/-- Claim C6. The handler `SendTestRandNum` starts one goroutine with the
`walletAddr` of the query. For every wallet address, the empty one included,
that goroutine generates its 8-character token first and, given enough
rounds of its busy loop, returns after exactly one publish, on topic
`"roulette." ++ walletAddr`, with that token as payload, made at or after the
10-second wake instant (within one round of it); it looks nothing up in the
store, and with any amount of fuel it either is still looping or has made
that publish. -/
theorem sendTestRandNum_publishes_once (gen : Int → Nat → Nat) (now : Int) (nc : Conn)
    (walletAddr : String) (spin : Nat) (fuel : Nat)
    (hspin : 0 < spin) (hfuel : 10 * Second / spin + 2 ≤ fuel) :
    (∀ (req : Request) (params : List Param),
      (SendTestRandNum nc ResponseWriter.fresh req params).spawned =
        [⟨req.query.Get "walletAddr", nc⟩]) ∧
    ∃ tok t,
      random 8 (NewSource gen now) =
        .ok (tok, ⟨fun i => (NewSource gen now).draws (i + 8)⟩) ∧
      tok.length = 8 ∧
      sendTestRandNumWorker gen now nc walletAddr spin fuel =
        .ok (some [Event.publish t ("roulette." ++ walletAddr) (goBytes tok)
          (nc ("roulette." ++ walletAddr) (goBytes tok))]) ∧
      10 * Second ≤ t ∧ t < 10 * Second + spin ∧
      lookups [Event.publish t ("roulette." ++ walletAddr) (goBytes tok)
          (nc ("roulette." ++ walletAddr) (goBytes tok))] = [] ∧
      ∀ fuel2,
        sendTestRandNumWorker gen now nc walletAddr spin fuel2 = .ok none ∨
        sendTestRandNumWorker gen now nc walletAddr spin fuel2 =
          .ok (some [Event.publish t ("roulette." ++ walletAddr) (goBytes tok)
            (nc ("roulette." ++ walletAddr) (goBytes tok))]) := by
  obtain ⟨tok, htok, hlen⟩ := random_returns 8 (NewSource gen now) (by decide) (by decide)
    (fun i _ => NewSource_nonneg gen now i)
  have hwake : wait (10 * Second) 0 = 10 * Second := Nat.zero_add _
  have hfuel1 : 1 ≤ fuel := le_trans (Nat.le_add_left 1 (10 * Second / spin + 1)) hfuel
  obtain ⟨f, rfl⟩ : ∃ f, fuel = f + 1 := ⟨fuel - 1, (Nat.sub_add_cancel hfuel1).symm⟩
  have hreach : 10 * Second ≤ 0 + f * spin := by
    have h1 : 10 * Second / spin + 1 ≤ f := Nat.le_of_succ_le_succ hfuel
    have h2 : (10 * Second / spin + 1) * spin ≤ f * spin := Nat.mul_le_mul_right _ h1
    have h3 : 10 * Second < (10 * Second / spin + 1) * spin := by
      have h4 := Nat.div_add_mod (10 * Second) spin
      have h5 := Nat.mod_lt (10 * Second) hspin
      rw [Nat.add_mul, Nat.one_mul, Nat.mul_comm (10 * Second / spin) spin]
      omega
    omega
  obtain ⟨t, hloop, hge, hlt⟩ :=
    sendTestRandNumLoop_returns nc walletAddr tok (10 * Second) spin f 0 hreach
  have hpos : 0 < 10 * Second := by decide
  have hlt2 : t < 10 * Second + spin := by
    rcases hlt with h | h
    · omega
    · exact h
  have hrun : ∀ fl, sendTestRandNumWorker gen now nc walletAddr spin fl =
      .ok (sendTestRandNumLoop nc walletAddr tok (10 * Second) spin fl 0) := by
    intro fl
    simp only [sendTestRandNumWorker, htok, hwake]
  refine ⟨fun _ _ => rfl, tok, t, htok, ?_, ?_, hge, hlt2, rfl, ?_⟩
  · simpa using hlen
  · rw [hrun, hloop]
  · intro fuel2
    rw [hrun]
    cases h2 : sendTestRandNumLoop nc walletAddr tok (10 * Second) spin fuel2 0 with
    | none => exact Or.inl rfl
    | some evs =>
      right
      have e1 := sendTestRandNumLoop_mono_le nc walletAddr tok (10 * Second) spin 0 evs fuel2 h2
        (f + 1)
      have e2 := sendTestRandNumLoop_mono_le nc walletAddr tok (10 * Second) spin 0 _ (f + 1)
        hloop fuel2
      rw [Nat.add_comm] at e2
      rw [e1] at e2
      rw [Option.some.inj e2]

/-- Witness for claim C6: the empty wallet address, rounds of 3 seconds: the
publish is made at 12 seconds on topic "roulette.". -/
theorem sendTestRandNum_publishes_once_witness :
    (0 < 3 * Second ∧ 10 * Second / (3 * Second) + 2 ≤ 5) ∧
    sendTestRandNumWorker countingGen 5 okConn "" (3 * Second) 5 =
      .ok (some [Event.publish (12 * Second) "roulette." (goBytes "5c3a18f6") none]) ∧
    (∀ (req : Request) (params : List Param),
      (SendTestRandNum okConn ResponseWriter.fresh req params).spawned =
        [⟨req.query.Get "walletAddr", okConn⟩]) ∧
    ∃ tok t,
      random 8 (NewSource countingGen 5) =
        .ok (tok, ⟨fun i => (NewSource countingGen 5).draws (i + 8)⟩) ∧
      tok.length = 8 ∧
      sendTestRandNumWorker countingGen 5 okConn "" (3 * Second) 5 =
        .ok (some [Event.publish t ("roulette." ++ "") (goBytes tok)
          (okConn ("roulette." ++ "") (goBytes tok))]) ∧
      10 * Second ≤ t ∧ t < 10 * Second + 3 * Second ∧
      lookups [Event.publish t ("roulette." ++ "") (goBytes tok)
          (okConn ("roulette." ++ "") (goBytes tok))] = [] ∧
      ∀ fuel2,
        sendTestRandNumWorker countingGen 5 okConn "" (3 * Second) fuel2 = .ok none ∨
        sendTestRandNumWorker countingGen 5 okConn "" (3 * Second) fuel2 =
          .ok (some [Event.publish t ("roulette." ++ "") (goBytes tok)
            (okConn ("roulette." ++ "") (goBytes tok))]) :=
  ⟨by decide, rfl,
   sendTestRandNum_publishes_once countingGen 5 okConn "" (3 * Second) 5 (by decide) (by decide)⟩

/-! ## Claims about the start-up of `rng-svc` -/

theorem Viper.Get_Set_ne (v : Viper) (key key2 : String) (x : Value) (h : key ≠ key2) :
    (v.Set key2 x).Get key = v.Get key := by
  have hb : (key == key2) = false := beq_eq_false_iff_ne.mpr h
  simp only [Viper.Get, Viper.Set, List.lookup, hb]

theorem setDefaults_Get (v : Viper) (key : String)
    (h1 : key ≠ "nats.random_number_subj") (h2 : key ≠ "rng.port") :
    (setDefaults v).Get key = v.Get key := by
  simp only [setDefaults]
  split <;> split <;> simp only [Viper.Get_Set_ne _ _ _ _ h1, Viper.Get_Set_ne _ _ _ _ h2]

/-- Claim C7, as stated, fails: with `nats.endpoint` set to the number 4222
and no `ergo_node.api_key`, the type assertion of line 37 panics before the
credentials are looked at, and the process ends with status 2, not 1 (no
connection is attempted and no server is built). -/
theorem rngSvcCommand_numeric_endpoint_panics :
    numericEndpointEnv.viper.Get "ergo_node.api_key" = none ∧
    (rngSvcCommand numericEndpointEnv).outcome =
      .panic (.interfaceConversion "nats.endpoint" "string") ∧
    (rngSvcCommand numericEndpointEnv).outcome.exitStatus = some 2 ∧
    (rngSvcCommand numericEndpointEnv).outcome ≠ .exit 1 ∧
    (rngSvcCommand numericEndpointEnv).steps = [] := by
  decide

/-- Claim C7, amended. When `ergo_node.api_key` is absent, or
`ergo_node.wallet_password` is absent, or the connection to the bus fails,
or the ping of the store fails, the command ends with a non-zero exit status,
which is 1 (`os.Exit(1)`) whenever `nats.endpoint` is absent or a string; the
server is neither constructed nor started, and with a missing credential no
connection is attempted. -/
theorem rngSvcCommand_fatal (env : Env)
    (h : env.viper.Get "ergo_node.api_key" = none ∨
      env.viper.Get "ergo_node.wallet_password" = none ∨
      (∀ endpoint, natsEndpointOf env.viper = .ok endpoint →
        (env.natsConnect endpoint).isSome = true) ∨
      env.redisPing.isSome = true) :
    (∃ code, (rngSvcCommand env).outcome.exitStatus = some code ∧ code ≠ 0) ∧
    (∀ endpoint, natsEndpointOf env.viper = .ok endpoint →
      (rngSvcCommand env).outcome = .exit 1) ∧
    (∀ port, Step.newServer port ∉ (rngSvcCommand env).steps) ∧
    Step.serverStart ∉ (rngSvcCommand env).steps ∧
    ((env.viper.Get "ergo_node.api_key" = none ∨
        env.viper.Get "ergo_node.wallet_password" = none) →
      (rngSvcCommand env).steps = []) := by
  have hk := setDefaults_Get env.viper "ergo_node.api_key" (by decide) (by decide)
  have hp := setDefaults_Get env.viper "ergo_node.wallet_password" (by decide) (by decide)
  unfold rngSvcCommand
  cases hep : natsEndpointOf env.viper with
  | error p => simp [Outcome.exitStatus]
  | ok endpoint =>
    simp only [hk, hp]
    cases hkey : env.viper.Get "ergo_node.api_key" with
    | none => simp [Outcome.exitStatus]
    | some k =>
      cases hpass : env.viper.Get "ergo_node.wallet_password" with
      | none => simp [Outcome.exitStatus]
      | some p =>
        cases hconn : env.natsConnect endpoint with
        | some e => simp [Outcome.exitStatus]
        | none =>
          cases hping : env.redisPing with
          | some e => simp [Outcome.exitStatus]
          | none =>
            rw [hkey, hpass, hping] at h
            rcases h with h | h | h | h
            · exact absurd h (by simp)
            · exact absurd h (by simp)
            · have hc := h endpoint hep
              rw [hconn] at hc
              exact absurd hc (by simp)
            · exact absurd h (by simp)

/-- Witness for claim C7 amended: credentials present, bus unreachable. -/
theorem rngSvcCommand_fatal_witness :
    (∀ endpoint, natsEndpointOf busDownEnv.viper = .ok endpoint →
      (busDownEnv.natsConnect endpoint).isSome = true) ∧
    (rngSvcCommand busDownEnv).outcome = .exit 1 ∧
    (rngSvcCommand busDownEnv).steps = [.natsConnect DefaultURL] ∧
    (∃ code, (rngSvcCommand busDownEnv).outcome.exitStatus = some code ∧ code ≠ 0) ∧
    (∀ endpoint, natsEndpointOf busDownEnv.viper = .ok endpoint →
      (rngSvcCommand busDownEnv).outcome = .exit 1) ∧
    (∀ port, Step.newServer port ∉ (rngSvcCommand busDownEnv).steps) ∧
    Step.serverStart ∉ (rngSvcCommand busDownEnv).steps ∧
    ((busDownEnv.viper.Get "ergo_node.api_key" = none ∨
        busDownEnv.viper.Get "ergo_node.wallet_password" = none) →
      (rngSvcCommand busDownEnv).steps = []) :=
  ⟨fun _ _ => rfl, rfl, rfl,
   rngSvcCommand_fatal busDownEnv (Or.inr (Or.inr (Or.inl (fun _ _ => rfl))))⟩

/-- Claim C9 fails on the code. With both credentials present, `rng.port`
absent and every connection succeeding, the command sets `rng.port` to the
string "8089"; the type assertion `viper.Get("rng.port").(int)` of line 86
then panics, after the router is built and before the server is constructed:
the process ends with status 2 and never serves. -/
theorem rngSvcCommand_default_port_panics :
    defaultPortEnv.viper.Get "rng.port" = none ∧
    (rngSvcCommand defaultPortEnv).viper.Get "rng.port" = some (.str "8089") ∧
    (rngSvcCommand defaultPortEnv).outcome = .panic (.interfaceConversion "rng.port" "int") ∧
    (rngSvcCommand defaultPortEnv).outcome.exitStatus = some 2 ∧
    (rngSvcCommand defaultPortEnv).steps =
      [.natsConnect DefaultURL, .redisPing "localhost:6379", .newService, .newRouter "rng"] ∧
    Step.newServer 8089 ∉ (rngSvcCommand defaultPortEnv).steps ∧
    Step.serverStart ∉ (rngSvcCommand defaultPortEnv).steps := by
  decide

end NightOwl
